import Mathlib

/-!
Verification of the racing/flying/walking game simulation core
(src/src/game/PlayerCar.tsx, src/src/game/trackPath.ts) and of the
leaderboard REST handler (the express server source).

Embedding conventions:
* JavaScript floating-point numbers are modelled as exact rationals.
* Calls into the host math library (Math.sin, Math.cos, Math.sqrt) are
  abstracted as an oracle record FloatLib passed to every function that
  the source makes perform such a call; theorems that depend on the
  meaning of a sqrt value carry an exactness hypothesis at the point
  where it is consumed.  None of the control-flow claims depend on the
  oracle being exact except where so hypothesised.
* The 500 pre-sampled track points are produced in the source by
  arc-length sampling a centripetal Catmull-Rom spline; the sample list
  is transcendental-valued, so it is a parameter of the embedding.
  getNearestTrackInfo, isOnTrack and the lap logic are embedded over an
  arbitrary sample list exactly as the source scans its own.
* performance.now() is a parameter (now), getGroundHeight is a
  parameter (the source's getTrackElevation is not part of src/), the
  remote-player list and key states are inputs.
* Mutation of the refs (race.current, boostMeter.current, ...) is
  modelled by explicit state passing: each tick function returns the
  record of every ref it writes, plus the callbacks it fired.
-/

namespace Playground

/-- Oracle for the host float math library: the values the source
obtains from Math.sin, Math.cos and Math.sqrt. -/
structure FloatLib where
  sin : ℚ → ℚ
  cos : ℚ → ℚ
  sqrt : ℚ → ℚ

/-- Exactness of the sqrt oracle at one point: the value it returned is
the true nonnegative square root of the argument. -/
def SqrtOK (lib : FloatLib) (x : ℚ) : Prop :=
  0 ≤ lib.sqrt x ∧ lib.sqrt x * lib.sqrt x = x

instance (lib : FloatLib) (x : ℚ) : Decidable (SqrtOK lib x) := by
  unfold SqrtOK
  infer_instance

/-- Computable rational square root, exact on squares of rationals whose
numerator and denominator are perfect squares; used to instantiate the
oracle in witnesses. -/
def ratSqrt (x : ℚ) : ℚ :=
  (Nat.sqrt x.num.toNat : ℚ) / (Nat.sqrt x.den : ℚ)

/-- Witness instantiation of the oracle: sin and cos are the exact
values at heading 0 (the only heading used by witnesses), sqrt is the
exact rational square root. -/
def witLib : FloatLib :=
  { sin := fun _ => 0, cos := fun _ => 1, sqrt := ratSqrt }

/-! Track curve service (src/src/game/trackPath.ts). -/

/-- TRACK_WIDTH from trackPath.ts: the full road width (the road mesh
extends TRACK_WIDTH/2 to each side of the curve). -/
def TRACK_WIDTH : ℚ := 18

/-- TOTAL_LAPS from trackPath.ts. -/
def TOTAL_LAPS : Nat := 3

/-- NUM_CHECKPOINTS from trackPath.ts. -/
def NUM_CHECKPOINTS : Nat := 4

/-- getCheckpointTs from trackPath.ts: (i+1)/(N+1) for i < N,
i.e. [0.2, 0.4, 0.6, 0.8]. -/
def getCheckpointTs : List ℚ :=
  (List.range NUM_CHECKPOINTS).map (fun i => ((i : ℚ) + 1) / ((NUM_CHECKPOINTS : ℚ) + 1))

/-- Planar point (x, z). -/
abbrev Pt2 := ℚ × ℚ

/-- Scan loop of getNearestTrackInfo: walks the remaining samples with
the running index and the best (index, squared distance) so far,
keeping a strictly smaller squared distance. -/
def scanPts (pos : Pt2) : List Pt2 → Nat → Nat × ℚ → Nat × ℚ
  | [], _, best => best
  | p :: rest, i, best =>
      let d := (pos.1 - p.1) * (pos.1 - p.1) + (pos.2 - p.2) * (pos.2 - p.2)
      scanPts pos rest (i + 1) (if d < best.2 then (i, d) else best)

/-- getNearestTrackInfo from trackPath.ts, over an arbitrary sample
list: returns the curve parameter nearestIdx / length and the squared
planar distance of the nearest sample (the source derives
distance = Math.sqrt of it, which callers recover via the oracle).
The source list has 500 samples, hence nonempty; the empty case is
unreachable there. -/
def getNearestTrackInfo (samples : List Pt2) (pos : Pt2) : Option (ℚ × ℚ) :=
  match samples with
  | [] => none
  | p :: rest =>
      let d0 := (pos.1 - p.1) * (pos.1 - p.1) + (pos.2 - p.2) * (pos.2 - p.2)
      let best := scanPts pos rest 1 (0, d0)
      some ((best.1 : ℚ) / ((p :: rest).length : ℚ), best.2)

/-- isOnTrack from trackPath.ts: nearest distance < TRACK_WIDTH / 2. -/
def isOnTrack (lib : FloatLib) (samples : List Pt2) (pos : Pt2) : Bool :=
  match getNearestTrackInfo samples pos with
  | none => false
  | some (_, dsq) => decide (lib.sqrt dsq < TRACK_WIDTH / 2)

/-! Racing session record (race.current in PlayerCar.tsx) and the
lap/checkpoint logic of tickDriving. -/

/-- race.current: the racing-session ref of the PlayerController. -/
structure Race where
  active : Bool
  lap : Nat
  lapStart : ℚ
  raceStart : ℚ
  bestLap : Option ℚ
  checkpoints : List Bool
  started : Bool
  lastT : ℚ
  finished : Bool
  deriving Repr, DecidableEq

/-- Result of one lap-tracking update: the new race record, the
onLapComplete argument when it fired, and the onRaceFinish argument
when it fired. -/
structure RaceOut where
  race : Race
  lapEvent : Option ℚ
  finishEvent : Option ℚ
  deriving Repr, DecidableEq

/-- Checkpoint-marking loop of tickDriving: for each checkpoint
parameter, the flag becomes true when it was unset and
prevT < cpT AND currT >= cpT.  Flags beyond the checkpoint list are
untouched (the source loop runs over checkpoint indices only). -/
def markCheckpoints (prevT currT : ℚ) : List Bool → List ℚ → List Bool
  | cps, [] => cps
  | [], _ :: _ => []
  | c :: cs, cpT :: rest =>
      (c || (decide (prevT < cpT) && decide (cpT ≤ currT)))
        :: markCheckpoints prevT currT cs rest

/-- Lap-tracking body of tickDriving (the code inside the
distance gate), operating on the race record with the current curve
parameter currT and the clock value now:
sets started once currT > 0.05, marks checkpoints on forward motion
(0 < tDelta < 0.5), completes a lap when prevT > 0.85 and currT < 0.15
and all checkpoint flags hold, and always stores currT as lastT. -/
def raceInnerStep (r : Race) (currT now : ℚ) : RaceOut :=
  let prevT := r.lastT
  let started := r.started || decide ((1 : ℚ)/20 < currT)
  if started then
    let tDelta := currT - prevT
    let cps :=
      if 0 < tDelta ∧ tDelta < 1/2 then
        markCheckpoints prevT currT r.checkpoints getCheckpointTs
      else r.checkpoints
    if (17 : ℚ)/20 < prevT ∧ currT < 3/20 ∧ cps.all (fun c => c) then
      let lapTime := now - r.lapStart
      let lap' := r.lap + 1
      let best' :=
        match r.bestLap with
        | none => lapTime
        | some b => if lapTime < b then lapTime else b
      let fin : Bool := decide (TOTAL_LAPS ≤ lap')
      { race :=
          { r with
            started := true
            lap := lap'
            bestLap := some best'
            finished := r.finished || fin
            lapStart := now
            checkpoints := getCheckpointTs.map (fun _ => false)
            lastT := currT }
        lapEvent := some lapTime
        finishEvent := if fin then some best' else none }
    else
      { race := { r with started := true, checkpoints := cps, lastT := currT }
        lapEvent := none
        finishEvent := none }
  else
    { race := { r with started := started, lastT := currT }
      lapEvent := none
      finishEvent := none }

/-- Lap-tracking section of tickDriving including its distance gate
(lines 909-944): the logic only runs when the nearest-sample distance
is below TRACK_WIDTH * 1.2; otherwise the race record, including
lastT, is untouched and no callback fires. -/
def raceGateStep (lib : FloatLib) (samples : List Pt2) (pos : Pt2)
    (r : Race) (now : ℚ) : RaceOut :=
  match getNearestTrackInfo samples pos with
  | none => { race := r, lapEvent := none, finishEvent := none }
  | some (t, dsq) =>
      if lib.sqrt dsq < TRACK_WIDTH * (6/5) then raceInnerStep r t now
      else { race := r, lapEvent := none, finishEvent := none }

/-! Vehicles, input, and the driving physics step (tickDriving in
PlayerCar.tsx, lines 822-945). -/

/-- Vehicle kind: 'car' | 'airplane'. -/
inductive VehicleType where
  | car
  | airplane
  deriving Repr, DecidableEq

/-- VehicleState: the mutable per-vehicle record (id/label/color are
rendering identity only and carry no physics, so they are omitted). -/
structure Vehicle where
  typ : VehicleType
  posX : ℚ
  posY : ℚ
  posZ : ℚ
  rot : ℚ
  speed : ℚ
  pitch : ℚ
  deriving Repr, DecidableEq

/-- Keyboard state (keys.current). -/
structure Keys where
  forward : Bool
  backward : Bool
  left : Bool
  right : Bool
  space : Bool
  shift : Bool
  deriving Repr, DecidableEq

/-- Physics constants DRIVE from PlayerCar.tsx. -/
structure DriveParams where
  maxSpeed : ℚ
  acceleration : ℚ
  braking : ℚ
  reverseMax : ℚ
  friction : ℚ
  turnSpeed : ℚ
  grassFriction : ℚ
  grassMaxSpeed : ℚ

/-- DRIVE constant record. -/
def DRIVE : DriveParams :=
  { maxSpeed := 90, acceleration := 40, braking := 55, reverseMax := 18,
    friction := 0.985, turnSpeed := 2.2, grassFriction := 0.978,
    grassMaxSpeed := 65 }

/-- MAX_STEP_UP from PlayerCar.tsx. -/
def MAX_STEP_UP : ℚ := 0.6

/-- Everything one driving frame writes: the vehicle, the race record,
boostMeter.current, carVelY.current, carOnGround.current, whether
exitVehicle ran (mode switched back to walking), and the callbacks. -/
structure DriveOut where
  v : Vehicle
  race : Race
  boost : ℚ
  velY : ℚ
  onGround : Bool
  exited : Bool
  lapEvent : Option ℚ
  finishEvent : Option ℚ
  deriving Repr, DecidableEq

/-- Intermediate result of the vertical (ramp/jump/gravity) section of
tickDriving: position, speed, vertical velocity, grounded flag. -/
structure Vert where
  x : ℚ
  z : ℚ
  y : ℚ
  spd : ℚ
  vy : ℚ
  grounded : Bool
  deriving Repr, DecidableEq

/-- exitVehicle effect on the state tracked here: speed zeroed, the
vehicle settled on the ground, the racing session deactivated, vertical
state reset (the character placement beside the vehicle is
walking-mode state, outside every claim). -/
def exitVehicle (ground : ℚ → ℚ → ℚ) (v : Vehicle) (r : Race)
    (boost : ℚ) : DriveOut :=
  { v := { v with speed := 0, posY := ground v.posX v.posZ }
    race := { r with active := false }
    boost := boost
    velY := 0
    onGround := true
    exited := true
    lapEvent := none
    finishEvent := none }

/-- Longitudinal speed pipeline of tickDriving (lines 848-860):
acceleration, braking/reverse, multiplicative friction, clamp to
[-reverseMax, maxSpeed] (boost-scaled, surface-dependent), and the
dead-zone snap to 0. -/
def driveSpeedPipeline (onRoad boosting : Bool) (k : Keys) (dt speed : ℚ) : ℚ :=
  let boostSpeedMult : ℚ := if boosting then 1.5 else 1
  let boostAccelMult : ℚ := if boosting then 1.8 else 1
  let maxSpd := (if onRoad then DRIVE.maxSpeed else DRIVE.grassMaxSpeed) * boostSpeedMult
  let fric := if onRoad then DRIVE.friction else DRIVE.grassFriction
  let s1 := if k.forward then speed + DRIVE.acceleration * boostAccelMult * dt
            else speed
  let s2 := if k.backward then
              (if 0 < s1 then s1 - DRIVE.braking * dt
               else s1 - DRIVE.acceleration * 0.5 * dt)
            else s1
  let s3 := s2 * fric
  let s4 := max (-DRIVE.reverseMax) (min maxSpd s3)
  if |s4| < 0.15 ∧ !k.forward ∧ !k.backward then 0 else s4

/-- Steering increment of tickDriving (lines 863-865): turn input
times turn speed, speed-ramped factor, dt, and the sign of the
direction of travel (Math.sign of speed-or-1); the source adds it to
v.rot with no wrapping. -/
def driveTurnIncrement (k : Keys) (dt s5 : ℚ) : ℚ :=
  let turn : ℚ := (if k.left then 1 else 0) - (if k.right then 1 else 0)
  let sf := min (|s5| / 8) 1
  let sgn : ℚ := if s5 = 0 then 1 else if 0 < s5 then 1 else -1
  turn * DRIVE.turnSpeed * sf * dt * sgn

/-- tickDriving from PlayerCar.tsx: interact exits; a finished session
freezes the step; otherwise boost bookkeeping, longitudinal
acceleration / braking / friction / clamp / dead-zone, steering,
planar movement, ramp-jump-gravity vertical handling, and the
lap-tracking section on the pre-movement position pos3. -/
def tickDriving (lib : FloatLib) (ground : ℚ → ℚ → ℚ)
    (samples : List Pt2) (dt : ℚ) (k : Keys) (justE : Bool)
    (v : Vehicle) (r : Race) (boost velY : ℚ) (onGround : Bool)
    (now : ℚ) : DriveOut :=
  if justE then exitVehicle ground v r boost
  else if r.finished then
    { v := v, race := r, boost := boost, velY := velY,
      onGround := onGround, exited := false,
      lapEvent := none, finishEvent := none }
  else
    let boosting := k.shift && decide (0 < boost) && k.forward
    let boost' := if boosting then max 0 (boost - 30 * dt)
                  else min 100 (boost + 12 * dt)
    let pos3 : Pt2 := (v.posX, v.posZ)
    let onRoad := isOnTrack lib samples pos3
    let s5 := driveSpeedPipeline onRoad boosting k dt v.speed
    let rot' := v.rot + driveTurnIncrement k dt s5
    let mx := lib.sin rot' * s5 * dt
    let mz := lib.cos rot' * s5 * dt
    let x1 := v.posX + mx
    let z1 := v.posZ + mz
    let groundLevel := ground x1 z1
    let vert : Vert :=
      if onGround then
        let prevY := v.posY
        let heightDiff := groundLevel - prevY
        let w : Vert :=
          if MAX_STEP_UP < heightDiff then
            -- wall: undo the move, bounce off the wall
            { x := x1 - mx, z := z1 - mz, y := prevY, spd := s5 * (-0.3),
              vy := velY, grounded := true }
          else if prevY - 0.3 ≤ groundLevel then
            { x := x1, z := z1, y := groundLevel, spd := s5,
              vy := heightDiff / max dt 0.001, grounded := true }
          else
            { x := x1, z := z1, y := prevY, spd := s5,
              vy := velY, grounded := false }
        if k.space ∧ w.grounded then
          { w with vy := w.vy + 14, grounded := false }
        else w
      else
        let velY1 := velY - 40 * dt
        let yA := v.posY + velY1 * dt
        if yA ≤ groundLevel then
          { x := x1, z := z1, y := groundLevel, spd := s5,
            vy := 0, grounded := true }
        else
          { x := x1, z := z1, y := yA, spd := s5,
            vy := velY1, grounded := false }
    let lap := raceGateStep lib samples pos3 r now
    { v := { v with
               posX := vert.x
               posZ := vert.z
               posY := vert.y
               rot := rot'
               speed := vert.spd }
      race := lap.race
      boost := boost'
      velY := vert.vy
      onGround := vert.grounded
      exited := false
      lapEvent := lap.lapEvent
      finishEvent := lap.finishEvent }

/-! Flying physics step (tickFlying in PlayerCar.tsx, lines 949-1021). -/

/-- Physics constants FLY from PlayerCar.tsx. -/
structure FlyParams where
  maxSpeed : ℚ
  acceleration : ℚ
  brake : ℚ
  drag : ℚ
  turnSpeed : ℚ
  climbRate : ℚ
  gravity : ℚ
  minFlySpeed : ℚ
  maxAltitude : ℚ
  groundY : ℚ
  bankAngle : ℚ

/-- FLY constant record. -/
def FLY : FlyParams :=
  { maxSpeed := 120, acceleration := 28, brake := 22, drag := 0.992,
    turnSpeed := 1.4, climbRate := 25, gravity := 10, minFlySpeed := 20,
    maxAltitude := 250, groundY := 1.5, bankAngle := 0.45 }

/-- Mouse delta for one frame (mouseRef.current.dx/dy). -/
structure Mouse where
  dx : ℚ
  dy : ℚ
  deriving Repr, DecidableEq

/-- Everything one flying step writes: the vehicle, the yaw/pitch
angular-velocity accumulators, and whether exitVehicle ran. -/
structure FlyOut where
  v : Vehicle
  yawVel : ℚ
  pitchVel : ℚ
  exited : Bool
  deriving Repr, DecidableEq

/-- tickFlying from PlayerCar.tsx: ground-only exit, throttle with
drag and clamp to [0, 120], impulse-then-decay yaw and pitch, pitch
clamp and auto-level, altitude from pitch / space / shift / stall
gravity clamped to [groundY, maxAltitude], then planar movement. -/
def tickFlying (lib : FloatLib) (ground : ℚ → ℚ → ℚ) (dt : ℚ)
    (k : Keys) (justE : Bool) (mouse : Mouse) (v : Vehicle)
    (yawVel pitchVel : ℚ) : FlyOut :=
  if justE ∧ v.posY ≤ FLY.groundY + 1 then
    -- exit: zero the flight state, then exitVehicle grounds the plane
    let v1 := { v with speed := 0, posY := FLY.groundY, pitch := 0 }
    { v := { v1 with speed := 0, posY := ground v1.posX v1.posZ }
      yawVel := 0
      pitchVel := 0
      exited := true }
  else
    let s1 := if k.forward then v.speed + FLY.acceleration * dt else v.speed
    let s2 := if k.backward then s1 - FLY.brake * dt else s1
    let s3 := s2 * FLY.drag
    let s4 := max 0 (min FLY.maxSpeed s3)
    let yawVel' := (yawVel + (-mouse.dx) * 0.002) * (1 - 5 * dt)
    let rot' := v.rot + yawVel' * dt
    let pitchVel' := (pitchVel + mouse.dy * 0.0015) * (1 - 4 * dt)
    let p1 := v.pitch + pitchVel' * dt
    let p2 := max (-0.7) (min 0.7 p1)
    let p3 := p2 * (1 - 0.2 * dt)
    let alt1 : ℚ := if FLY.minFlySpeed * 0.5 ≤ s4 then s4 * lib.sin (-p3) * 0.5 else 0
    let alt2 := alt1 + (if k.space then FLY.climbRate else 0)
    let alt3 := alt2 - (if k.shift then FLY.climbRate else 0)
    let alt4 := alt3 -
      (if FLY.groundY + 0.5 < v.posY ∧ s4 < FLY.minFlySpeed then FLY.gravity else 0)
    let y' := max FLY.groundY (min FLY.maxAltitude (v.posY + alt4 * dt))
    { v := { v with
               speed := s4
               rot := rot'
               pitch := p3
               posY := y'
               posX := v.posX + lib.sin rot' * s4 * dt
               posZ := v.posZ + lib.cos rot' * s4 * dt }
      yawVel := yawVel'
      pitchVel := pitchVel'
      exited := false }

/-! Vehicle-to-vehicle collision resolver (tickVehicleCollisions in
PlayerCar.tsx, lines 1139-1197). -/

/-- CAR_COLLISION_RADIUS from PlayerCar.tsx. -/
def CAR_COLLISION_RADIUS : ℚ := 1.2

/-- PLANE_COLLISION_RADIUS from PlayerCar.tsx. -/
def PLANE_COLLISION_RADIUS : ℚ := 2.0

/-- COLLISION_BOUNCE from PlayerCar.tsx. -/
def COLLISION_BOUNCE : ℚ := 0.6

/-- Collision radius by vehicle type. -/
def vehRadius : VehicleType → ℚ
  | .car => CAR_COLLISION_RADIUS
  | .airplane => PLANE_COLLISION_RADIUS

/-- Movement mode of a player (local or remote). -/
inductive Mode where
  | walking
  | driving
  | flying
  deriving Repr, DecidableEq

/-- Collision radius of a remote player by reported mode (walking
pedestrians use radius 1.0). -/
def remoteRadius : Mode → ℚ
  | .flying => PLANE_COLLISION_RADIUS
  | .driving => CAR_COLLISION_RADIUS
  | .walking => 1.0

/-- Remote player as used by the collision resolver: planar position
and reported mode. -/
structure RemoteP where
  posX : ℚ
  posZ : ℚ
  mode : Mode
  deriving Repr, DecidableEq

/-- resolveCollision helper of tickVehicleCollisions: planar
circle-vs-circle test between the active vehicle and a position with
the other radius.  When they overlap (epsilon 0.01 excluded) the
active vehicle is pushed out along the normal by the overlap — halved
when the other object is mutable (pushOther) — its speed is inverted
and damped when its heading points along the normal, and the mutable
other object is pushed back by half the overlap.  Returns the updated
active vehicle and (for a mutable other) the other's new position. -/
def resolveCollision (lib : FloatLib) (me : Vehicle) (ox oz otherR : ℚ)
    (pushOther : Bool) : Vehicle × Option Pt2 :=
  let minDist := vehRadius me.typ + otherR
  let dx := me.posX - ox
  let dz := me.posZ - oz
  let dist := lib.sqrt (dx * dx + dz * dz)
  if dist < minDist ∧ 0.01 < dist then
    let overlap := minDist - dist
    let nx := dx / dist
    let nz := dz / dist
    let mult : ℚ := if pushOther then 0.5 else 1.0
    let me1 := { me with
                   posX := me.posX + nx * overlap * mult
                   posZ := me.posZ + nz * overlap * mult }
    let dot := lib.sin me.rot * nx + lib.cos me.rot * nz
    let me2 := if 0 < dot then { me1 with speed := me1.speed * (-COLLISION_BOUNCE) }
               else me1
    (me2, if pushOther then some (ox - nx * overlap * 0.5, oz - nz * overlap * 0.5)
          else none)
  else (me, if pushOther then some (ox, oz) else none)

/-- Loop of tickVehicleCollisions over the other local (parked)
vehicles: each is mutable, so pushOther is set and its position is
updated from the resolver's answer. -/
def collideOthers (lib : FloatLib) : Vehicle → List Vehicle → Vehicle × List Vehicle
  | me, [] => (me, [])
  | me, o :: os =>
      let res := resolveCollision lib me o.posX o.posZ (vehRadius o.typ) true
      let o' := match res.2 with
                | some p => { o with posX := p.1, posZ := p.2 }
                | none => o
      let rest := collideOthers lib res.1 os
      (rest.1, o' :: rest.2)

/-- Loop of tickVehicleCollisions over remote players: immovable, so
pushOther is not set. -/
def collideRemotes (lib : FloatLib) : Vehicle → List RemoteP → Vehicle
  | me, [] => me
  | me, rp :: rps =>
      collideRemotes lib
        (resolveCollision lib me rp.posX rp.posZ (remoteRadius rp.mode) false).1 rps

/-- tickVehicleCollisions from PlayerCar.tsx for a non-walking mode
with an active vehicle: first the other local vehicles, then the
remote players. -/
def tickVehicleCollisions (lib : FloatLib) (me : Vehicle)
    (others : List Vehicle) (remotes : List RemoteP) : Vehicle × List Vehicle :=
  let a := collideOthers lib me others
  (collideRemotes lib a.1 remotes, a.2)

/-- One full frame of the useFrame loop as seen by a driving player,
restricted to the subsystems that touch the vehicle: tickDriving
followed by tickVehicleCollisions.  When tickDriving exited the
vehicle the mode is walking again and the collision pass skips
(tickVehicleCollisions returns immediately for walking mode). -/
def drivingFrame (lib : FloatLib) (ground : ℚ → ℚ → ℚ)
    (samples : List Pt2) (dt : ℚ) (k : Keys) (justE : Bool)
    (v : Vehicle) (r : Race) (boost velY : ℚ) (onGround : Bool)
    (now : ℚ) (others : List Vehicle) (remotes : List RemoteP) :
    DriveOut × List Vehicle :=
  let d := tickDriving lib ground samples dt k justE v r boost velY onGround now
  if d.exited then (d, others)
  else
    let c := tickVehicleCollisions lib d.v others remotes
    ({ d with v := c.1 }, c.2)

/-- One full frame of the useFrame loop as seen by a flying player:
tickFlying followed by tickVehicleCollisions (skipped after exit). -/
def flyingFrame (lib : FloatLib) (ground : ℚ → ℚ → ℚ) (dt : ℚ)
    (k : Keys) (justE : Bool) (mouse : Mouse) (v : Vehicle)
    (yawVel pitchVel : ℚ) (others : List Vehicle)
    (remotes : List RemoteP) : FlyOut × List Vehicle :=
  let f := tickFlying lib ground dt k justE mouse v yawVel pitchVel
  if f.exited then (f, others)
  else
    let c := tickVehicleCollisions lib f.v others remotes
    ({ f with v := c.1 }, c.2)

/-! Walking-mode reported speed (syncToReact in PlayerCar.tsx). -/

/-- Physics constants WALK from PlayerCar.tsx. -/
structure WalkParams where
  speed : ℚ
  runSpeed : ℚ

/-- WALK constant record. -/
def WALK : WalkParams := { speed := 8, runSpeed := 16 }

/-- The walking-mode speed syncToReact publishes: runSpeed or speed
while moving, 0 otherwise. -/
def walkReportedSpeed (isMoving shift : Bool) : ℚ :=
  if isMoving then (if shift then WALK.runSpeed else WALK.speed) else 0

/-! Projectile and target subsystem (PlayerCar.tsx: makeBulletPool,
fireBullet, tickBullets, makeTargets, tickTargets). -/

/-- 3D vector with rational components. -/
structure V3 where
  x : ℚ
  y : ℚ
  z : ℚ
  deriving Repr, DecidableEq

/-- MAX_BULLETS from PlayerCar.tsx. -/
def MAX_BULLETS : Nat := 30

/-- BULLET_SPEED from PlayerCar.tsx. -/
def BULLET_SPEED : ℚ := 280

/-- BULLET_LIFETIME from PlayerCar.tsx. -/
def BULLET_LIFETIME : ℚ := 2.5

/-- TARGET_HIT_RADIUS_SQ from PlayerCar.tsx (4 squared). -/
def TARGET_HIT_RADIUS_SQ : ℚ := 16

/-- TARGET_RESPAWN_TIME from PlayerCar.tsx. -/
def TARGET_RESPAWN_TIME : ℚ := 3

/-- Pooled bullet record. -/
structure Bullet where
  active : Bool
  pos : V3
  vel : V3
  age : ℚ
  deriving Repr, DecidableEq

/-- makeBulletPool from PlayerCar.tsx: MAX_BULLETS inactive slots. -/
def makeBulletPool : List Bullet :=
  List.replicate MAX_BULLETS
    { active := false, pos := ⟨0, 0, 0⟩, vel := ⟨0, 0, 0⟩, age := 0 }

/-- Aerial target record. -/
structure AerialTarget where
  pos : V3
  alive : Bool
  respawnTimer : ℚ
  deriving Repr, DecidableEq

/-- makeTargets from PlayerCar.tsx: the fixed roster of 10 targets. -/
def makeTargets : List AerialTarget :=
  [ { pos := ⟨40, 50, 60⟩, alive := true, respawnTimer := 0 },
    { pos := ⟨-60, 70, 30⟩, alive := true, respawnTimer := 0 },
    { pos := ⟨20, 40, -80⟩, alive := true, respawnTimer := 0 },
    { pos := ⟨-30, 90, -40⟩, alive := true, respawnTimer := 0 },
    { pos := ⟨80, 60, -20⟩, alive := true, respawnTimer := 0 },
    { pos := ⟨-70, 55, 70⟩, alive := true, respawnTimer := 0 },
    { pos := ⟨0, 80, 0⟩, alive := true, respawnTimer := 0 },
    { pos := ⟨50, 45, 90⟩, alive := true, respawnTimer := 0 },
    { pos := ⟨-90, 65, -60⟩, alive := true, respawnTimer := 0 },
    { pos := ⟨70, 100, 50⟩, alive := true, respawnTimer := 0 } ]

/-- Replace the first inactive slot of the pool (the pool.find of
fireBullet plus the in-place mutation); none when every slot is
active. -/
def fireInto (b' : Bullet) : List Bullet → Option (List Bullet)
  | [] => none
  | b :: bs =>
      if !b.active then some (b' :: bs)
      else (fireInto b' bs).map (fun p => b :: p)

/-- The bullet fireBullet builds: spawned at the nose plus wing
offset, with velocity along the (normalised) forward direction scaled
by BULLET_SPEED plus half the plane's own velocity. -/
def newBullet (lib : FloatLib) (v : Vehicle) (fireLeft : Bool) : Bullet :=
  let cp := lib.cos v.pitch
  let sp := lib.sin v.pitch
  let fx := lib.sin v.rot * cp
  let fy := -sp
  let fz := lib.cos v.rot * cp
  -- THREE.Vector3.normalize divides by the length unless it is 0
  let len := lib.sqrt (fx * fx + fy * fy + fz * fz)
  let l := if len = 0 then 1 else len
  let fwd : V3 := ⟨fx / l, fy / l, fz / l⟩
  let right : V3 := ⟨lib.cos v.rot, 0, -(lib.sin v.rot)⟩
  let offset : ℚ := if fireLeft then -2.8 else 2.8
  { active := true
    age := 0
    pos := ⟨v.posX + fwd.x * 3.5 + right.x * offset,
            v.posY + fwd.y * 3.5 + right.y * offset,
            v.posZ + fwd.z * 3.5 + right.z * offset⟩
    vel := ⟨fwd.x * BULLET_SPEED + lib.sin v.rot * v.speed * 0.5,
            fwd.y * BULLET_SPEED,
            fwd.z * BULLET_SPEED + lib.cos v.rot * v.speed * 0.5⟩ }

/-- fireBullet from PlayerCar.tsx: silently no-op when the pool is
exhausted (the left/right alternation flag is untouched then);
otherwise write the new bullet into the first inactive slot and flip
the alternation flag. -/
def fireBullet (lib : FloatLib) (v : Vehicle) (fireLeft : Bool)
    (pool : List Bullet) : List Bullet × Bool :=
  match fireInto (newBullet lib v fireLeft) pool with
  | none => (pool, fireLeft)
  | some p => (p, !fireLeft)

/-- Bullet-versus-targets scan of tickBullets: the first alive target
within the squared hit radius is destroyed (alive false, respawn
timer TARGET_RESPAWN_TIME) and the scan stops. -/
def tryHit (bpos : V3) : List AerialTarget → Bool × List AerialTarget
  | [] => (false, [])
  | t :: ts =>
      if t.alive ∧
          (bpos.x - t.pos.x) * (bpos.x - t.pos.x) +
          (bpos.y - t.pos.y) * (bpos.y - t.pos.y) +
          (bpos.z - t.pos.z) * (bpos.z - t.pos.z) < TARGET_HIT_RADIUS_SQ then
        (true, { t with alive := false, respawnTimer := TARGET_RESPAWN_TIME } :: ts)
      else
        let r := tryHit bpos ts
        (r.1, t :: r.2)

/-- One bullet slot of the tickBullets loop: inactive bullets are
skipped; age accrues; timeout or falling below y = -1 deactivates
before moving; otherwise the bullet advances, gravity pulls its
vertical velocity, and a target hit deactivates it. -/
def tickBullet (dt : ℚ) (b : Bullet) (ts : List AerialTarget) :
    Bullet × List AerialTarget :=
  if !b.active then (b, ts)
  else
    let age' := b.age + dt
    if BULLET_LIFETIME < age' ∨ b.pos.y < -1 then
      ({ b with active := false, age := age' }, ts)
    else
      let pos' : V3 := ⟨b.pos.x + b.vel.x * dt, b.pos.y + b.vel.y * dt,
                        b.pos.z + b.vel.z * dt⟩
      let vel' : V3 := ⟨b.vel.x, b.vel.y - 9.8 * dt, b.vel.z⟩
      let r := tryHit pos' ts
      ({ b with pos := pos', vel := vel', age := age', active := !r.1 }, r.2)

/-- tickBullets from PlayerCar.tsx: the pool is walked in order, each
bullet seeing the target list as left by the previous one. -/
def tickBullets (dt : ℚ) : List Bullet → List AerialTarget →
    List Bullet × List AerialTarget
  | [], ts => ([], ts)
  | b :: bs, ts =>
      let r := tickBullet dt b ts
      let rest := tickBullets dt bs r.2
      (r.1 :: rest.1, rest.2)

/-- One target of the tickTargets loop: a dead target's respawn timer
is decremented by dt and the target revives once it reaches 0; alive
targets are untouched (their mesh rotation is rendering only). -/
def tickTarget (dt : ℚ) (t : AerialTarget) : AerialTarget :=
  if !t.alive then
    let timer' := t.respawnTimer - dt
    if timer' ≤ 0 then { t with respawnTimer := timer', alive := true }
    else { t with respawnTimer := timer' }
  else t

/-- tickTargets from PlayerCar.tsx. -/
def tickTargets (dt : ℚ) (ts : List AerialTarget) : List AerialTarget :=
  ts.map (tickTarget dt)

/-! Leaderboard REST handler (the express server source,
app.post on /api/leaderboard).  JavaScript strings are modelled as
character lists; the request body's name is [] when absent or empty
(both are falsy for the !name check), timeIsNumber records the
typeof check, and the ISO date string is a parameter. -/

/-- Stored leaderboard entry. -/
structure LBEntry where
  name : List Char
  time : ℚ
  date : List Char
  deriving Repr, DecidableEq

/-- Response of the POST handler: 400, or success with the computed
rank. -/
inductive LBResponse where
  | badRequest
  | ok (rank : Nat)
  deriving Repr, DecidableEq

/-- Comparator of the store sort: ascending by time (the source sorts
with a.time - b.time, which is stable in JavaScript; insertionSort is
the stable sort realizing it). -/
def lbLe (a b : LBEntry) : Prop := a.time ≤ b.time

instance : DecidableRel lbLe := fun a b => inferInstanceAs (Decidable (a.time ≤ b.time))

instance : IsTotal LBEntry lbLe := ⟨fun a b => le_total a.time b.time⟩

instance : IsTrans LBEntry lbLe := ⟨fun _ _ _ hab hbc => le_trans hab hbc⟩

/-- Array.prototype.findIndex as an index option (none for -1). -/
def findIndexFrom (p : LBEntry → Bool) : List LBEntry → Option Nat
  | [] => none
  | e :: es => if p e then some 0 else (findIndexFrom p es).map (fun n => n + 1)

/-- POST /api/leaderboard: reject a missing/empty name, a non-number
time, or a non-positive time with 400 leaving the store alone; else
append the entry with the name cut to 20 characters, stable-sort
ascending by time, keep the first 200, and answer with
findIndex(e => e.time === time && e.name === name) + 1 — note the
lookup uses the original, un-truncated name. -/
def postLeaderboard (store : List LBEntry) (name : List Char)
    (timeIsNumber : Bool) (time : ℚ) (nowIso : List Char) :
    List LBEntry × LBResponse :=
  if name = [] ∨ !timeIsNumber ∨ time ≤ 0 then (store, .badRequest)
  else
    let entries := store ++ [{ name := name.take 20, time := time, date := nowIso }]
    let sorted := List.insertionSort lbLe entries
    let trimmed := sorted.take 200
    let rank :=
      match findIndexFrom (fun e => decide (e.time = time) && decide (e.name = name)) trimmed with
      | none => 0
      | some i => i + 1
    (trimmed, .ok rank)

/-! Concrete fixtures used by witnesses and counterexamples. -/

/-- Flat ground function (track elevation 0, off the ramp). -/
def ground0 : ℚ → ℚ → ℚ := fun _ _ => 0

/-- No key held. -/
def keys0 : Keys :=
  { forward := false, backward := false, left := false, right := false,
    space := false, shift := false }

/-- Only the left-steer key held. -/
def keysL : Keys := { keys0 with left := true }

/-- One-sample track fixture. -/
def samp0 : List Pt2 := [(0, 0)]

/-- Two-sample track fixture. -/
def samp2 : List Pt2 := [(0, 0), (0, 30)]

/-- Fresh racing session shortly after start: not yet started counting,
last parameter 0.3. -/
def raceFresh : Race :=
  { active := true, lap := 0, lapStart := 0, raceStart := 0, bestLap := none,
    checkpoints := [false, false, false, false], started := false,
    lastT := 3/10, finished := false }

/-- Session one step from lap completion: started, every checkpoint
passed, last parameter 0.9. -/
def raceGo : Race :=
  { active := true, lap := 1, lapStart := 20, raceStart := 0, bestLap := none,
    checkpoints := [true, true, true, true], started := true,
    lastT := 9/10, finished := false }

/-- Finished session. -/
def raceDone : Race :=
  { active := true, lap := 3, lapStart := 20, raceStart := 0,
    bestLap := some 40, checkpoints := [false, false, false, false],
    started := true, lastT := 1/10, finished := true }

/-- Car parked 15 units east of the only track samples. -/
def carAt15 : Vehicle :=
  { typ := .car, posX := 15, posY := 0, posZ := 0, rot := 0, speed := 0,
    pitch := 0 }

/-- Car on the track sample heading +z at speed 40. -/
def carFast : Vehicle :=
  { typ := .car, posX := 0, posY := 0, posZ := 0, rot := 0, speed := 40,
    pitch := 0 }

/-- Car heading 3.1 radians (still inside (-pi, pi]) at speed 40. -/
def carTurn : Vehicle :=
  { typ := .car, posX := 0, posY := 0, posZ := 0, rot := 31/10, speed := 40,
    pitch := 0 }

/-- Car one unit north of the origin, heading +z, speed 40. -/
def carMe5 : Vehicle :=
  { typ := .car, posX := 0, posY := 0, posZ := 1, rot := 0, speed := 40,
    pitch := 0 }

/-- Walking remote player just behind carFast's end-of-step position. -/
def remoteWalk : RemoteP := { posX := 0, posZ := 97/100, mode := .walking }

/-- A 21-character leaderboard name. -/
def longName : List Char :=
  ['A', 'B', 'C', 'D', 'E', 'F', 'G', 'H', 'I', 'J', 'K', 'L', 'M', 'N',
   'O', 'P', 'Q', 'R', 'S', 'T', 'U']

/-- Successive frames of tickTargets applied to one target (the
per-frame delta list also covers the frame of the hit itself, whose
tickTargets call already decrements the fresh countdown). -/
def applyFrames (t : AerialTarget) (dts : List ℚ) : AerialTarget :=
  dts.foldl (fun t d => tickTarget d t) t

/-- A fresh inactive bullet slot (the makeBulletPool element). -/
def inactiveB : Bullet :=
  { active := false, pos := ⟨0, 0, 0⟩, vel := ⟨0, 0, 0⟩, age := 0 }

/-- An active bullet slot. -/
def activeB : Bullet :=
  { active := true, pos := ⟨0, 0, 0⟩, vel := ⟨0, 0, 0⟩, age := 0 }

/-- A fully exhausted pool: every slot active. -/
def poolFull : List Bullet := List.replicate MAX_BULLETS activeB

/-- Airplane fixture at the origin. -/
def planeV : Vehicle :=
  { typ := .airplane, posX := 0, posY := 0, posZ := 0, rot := 0, speed := 0,
    pitch := 0 }

/-! Theorems. -/

/-- Squared-comparison form of a sqrt guard: when the oracle returned
the exact square root, comparing it against a positive constant is
comparing the squared distance against the squared constant. -/
theorem sqrt_guard_iff (lib : FloatLib) (d c : ℚ) (hsq : SqrtOK lib d)
    (hc : 0 < c) : (lib.sqrt d < c ↔ d < c^2) := by
  obtain ⟨h0, hs⟩ := hsq
  constructor
  · intro h
    nlinarith
  · intro h
    nlinarith

/-- Claim C1: in a started driving-mode lap-tracker update the lap
counter increments exactly when the previous parameter exceeds 0.85,
the current parameter is below 0.15 and every checkpoint flag is true;
on completion the lap increases by one, the best lap improves when the
new lap time beats it (or it was unset), the lap timer and checkpoint
flags reset, the lap callback fires, and reaching the configured lap
total marks the session finished and fires the race-finish callback;
a wrap with an unset checkpoint never increments the lap. -/
theorem C1_lap_completion (r : Race) (currT now : ℚ)
    (hs : r.started = true) (hf : r.finished = false) :
    ((raceInnerStep r currT now).race.lap = r.lap + 1 ↔
        ((17 : ℚ)/20 < r.lastT ∧ currT < 3/20 ∧
          r.checkpoints.all (fun c => c) = true)) ∧
    ((17 : ℚ)/20 < r.lastT → currT < 3/20 →
      r.checkpoints.all (fun c => c) = true →
      (raceInnerStep r currT now).race.lap = r.lap + 1 ∧
      (raceInnerStep r currT now).race.bestLap =
        some (match r.bestLap with
              | none => now - r.lapStart
              | some b => if now - r.lapStart < b then now - r.lapStart else b) ∧
      (raceInnerStep r currT now).race.lapStart = now ∧
      (raceInnerStep r currT now).race.checkpoints =
        getCheckpointTs.map (fun _ => false) ∧
      (raceInnerStep r currT now).lapEvent = some (now - r.lapStart) ∧
      (TOTAL_LAPS ≤ r.lap + 1 →
        (raceInnerStep r currT now).race.finished = true ∧
        (raceInnerStep r currT now).finishEvent =
          (raceInnerStep r currT now).race.bestLap) ∧
      (r.lap + 1 < TOTAL_LAPS →
        (raceInnerStep r currT now).race.finished = false ∧
        (raceInnerStep r currT now).finishEvent = none)) ∧
    (r.checkpoints.all (fun c => c) = false →
      (raceInnerStep r currT now).race.lap = r.lap) := by
  simp only [raceInnerStep, hs, Bool.true_or, if_true]
  split_ifs with hA hB hfin hB2 hfin2
  · exact absurd hA.1 (by push_neg; linarith [hB.1, hB.2.1])
  · exact absurd hA.1 (by push_neg; linarith [hB.1, hB.2.1])
  · refine ⟨⟨fun h => ?_, fun h => ?_⟩, fun h1 h2 h3 => ?_, fun _ => rfl⟩
    · simp at h
    · exact absurd hA.1 (by push_neg; linarith [h.1, h.2.1])
    · exact absurd hA.1 (by push_neg; linarith [h1, h2])
  · refine ⟨⟨fun _ => hB2, fun _ => rfl⟩,
      fun h1 h2 h3 => ⟨rfl, rfl, rfl, rfl, rfl, fun htl => ⟨?_, rfl⟩, fun h => ?_⟩,
      fun h => ?_⟩
    · simp [hf, of_decide_eq_true hfin2]
    · exact absurd (of_decide_eq_true hfin2) (by omega)
    · rw [h] at hB2
      exact absurd hB2.2.2 (by simp)
  · refine ⟨⟨fun _ => hB2, fun _ => rfl⟩,
      fun h1 h2 h3 => ⟨rfl, rfl, rfl, rfl, rfl, fun h => ?_, fun h => ⟨?_, rfl⟩⟩,
      fun h => ?_⟩
    · exact absurd (decide_eq_true h) hfin2
    · have hd : decide (TOTAL_LAPS ≤ r.lap + 1) = false := by
        simpa using hfin2
      simp [hf, hd]
    · rw [h] at hB2
      exact absurd hB2.2.2 (by simp)
  · refine ⟨⟨fun h => ?_, fun h => absurd h hB2⟩,
      fun h1 h2 h3 => absurd ⟨h1, h2, h3⟩ hB2, fun _ => rfl⟩
    simp at h

/-- Witness for C1: a started session with every checkpoint passed
wrapping 0.9 to 0.1 completes the lap. -/
theorem C1_lap_completion_witness :
    raceGo.started = true ∧ raceGo.finished = false ∧
    (raceInnerStep raceGo (1/10) 100).race.lap = raceGo.lap + 1 :=
  ⟨by with_unfolding_all decide, by with_unfolding_all decide,
    ((C1_lap_completion raceGo (1/10) 100 (by with_unfolding_all decide) (by with_unfolding_all decide)).1).mpr
      (by with_unfolding_all decide)⟩

/-- Claim C2 (amended): the lap/checkpoint section of a driving step
runs iff the planar distance from the pre-step position to the nearest
track sample is below 1.2 times the FULL track width (21.6 world
units, i.e. 2.4 times the half width); with an exact sqrt oracle this
is the squared comparison against 21.6 squared.  Below the threshold
the section runs as raceInnerStep on the nearest parameter; at or
above it the race record (lastT included) is untouched and no
callback fires. -/
theorem C2_distance_gate (lib : FloatLib) (samples : List Pt2) (pos : Pt2)
    (r : Race) (now : ℚ) (t dsq : ℚ)
    (hn : getNearestTrackInfo samples pos = some (t, dsq))
    (hsq : SqrtOK lib dsq) :
    (lib.sqrt dsq < TRACK_WIDTH * (6/5) ↔ dsq < (TRACK_WIDTH * (6/5))^2) ∧
    (dsq < (TRACK_WIDTH * (6/5))^2 →
      raceGateStep lib samples pos r now = raceInnerStep r t now) ∧
    (¬dsq < (TRACK_WIDTH * (6/5))^2 →
      raceGateStep lib samples pos r now =
        { race := r, lapEvent := none, finishEvent := none }) := by
  have hiff := sqrt_guard_iff lib dsq (TRACK_WIDTH * (6/5)) hsq (by norm_num [TRACK_WIDTH])
  refine ⟨hiff, fun h => ?_, fun h => ?_⟩
  · unfold raceGateStep
    rw [hn]
    simp only [if_pos (hiff.mpr h)]
  · unfold raceGateStep
    rw [hn]
    simp only [if_neg (fun hlt => h (hiff.mp hlt))]

/-- Witness for C2: nine units of squared distance (distance 3) is
inside the gate, and the lap logic runs. -/
theorem C2_distance_gate_witness :
    SqrtOK witLib 9 ∧ ((9 : ℚ) < (TRACK_WIDTH * (6/5))^2) ∧
    raceGateStep witLib samp0 (0, 3) raceFresh 0 = raceInnerStep raceFresh 0 0 :=
  ⟨by with_unfolding_all decide, by with_unfolding_all decide,
    (C2_distance_gate witLib samp0 (0, 3) raceFresh 0 0 9 (by with_unfolding_all decide)
      (by with_unfolding_all decide)).2.1 (by with_unfolding_all decide)⟩

/-- Counterexample for C2 as stated: at planar distance 15 from the
nearest sample — well beyond 1.2 times the HALF track width (10.8) —
the lap-tracking section still runs: the stored last parameter is
overwritten (0.3 becomes 0), because the source gate compares against
1.2 times the full TRACK_WIDTH (21.6). -/
theorem C2_distance_gate_cex :
    getNearestTrackInfo samp2 (15, 0) = some (0, 225) ∧
    witLib.sqrt 225 = 15 ∧
    ¬((15 : ℚ) < TRACK_WIDTH / 2 * (6/5)) ∧
    (tickDriving witLib ground0 samp2 (1/20) keys0 false carAt15 raceFresh
        100 0 true 0).race.lastT = 0 ∧
    raceFresh.lastT = 3/10 := by
  with_unfolding_all decide

/-- Claim C9: the curve parameter driving the checkpoint and lap logic
of a driving step is taken from the planar position captured before
the step's own movement: the race output of tickDriving equals
raceGateStep at the input position, and is unchanged under any
variation of the step's speed, steering, delta or vertical state that
keeps the captured position — so a crossing caused by this step's
movement is only visible to the next step. -/
theorem C9_lap_uses_premove_position (lib : FloatLib) (ground : ℚ → ℚ → ℚ)
    (samples : List Pt2) (dt : ℚ) (k : Keys) (v : Vehicle) (r : Race)
    (boost velY : ℚ) (onGround : Bool) (now : ℚ)
    (hf : r.finished = false) :
    ((tickDriving lib ground samples dt k false v r boost velY onGround now).race =
      (raceGateStep lib samples (v.posX, v.posZ) r now).race) ∧
    ((tickDriving lib ground samples dt k false v r boost velY onGround now).lapEvent =
      (raceGateStep lib samples (v.posX, v.posZ) r now).lapEvent) ∧
    ((tickDriving lib ground samples dt k false v r boost velY onGround now).finishEvent =
      (raceGateStep lib samples (v.posX, v.posZ) r now).finishEvent) ∧
    ∀ (dt' : ℚ) (k' : Keys) (v' : Vehicle) (boost' velY' : ℚ) (onGround' : Bool),
      v'.posX = v.posX → v'.posZ = v.posZ →
      (tickDriving lib ground samples dt' k' false v' r boost' velY' onGround' now).race =
        (tickDriving lib ground samples dt k false v r boost velY onGround now).race := by
  refine ⟨?_, ?_, ?_, ?_⟩
  · simp [tickDriving, hf]
  · simp [tickDriving, hf]
  · simp [tickDriving, hf]
  · intro dt' k' v' boost' velY' onGround' hx hz
    simp [tickDriving, hf, hx, hz]

/-- Witness for C9: concrete unfinished session. -/
theorem C9_lap_uses_premove_position_witness :
    raceFresh.finished = false ∧
    (tickDriving witLib ground0 samp2 (1/20) keys0 false carAt15 raceFresh
        100 0 true 0).race =
      (raceGateStep witLib samp2 (carAt15.posX, carAt15.posZ) raceFresh 0).race :=
  ⟨by with_unfolding_all decide,
    (C9_lap_uses_premove_position witLib ground0 samp2 (1/20) keys0 carAt15
      raceFresh 100 0 true 0 (by with_unfolding_all decide)).1⟩

/-- Claim C10: once the session is finished, a driving step without
interact is frozen — vehicle, race record, boost, vertical state all
unchanged and no callback fires — while interact still exits the
vehicle and deactivates the session. -/
theorem C10_finished_freeze (lib : FloatLib) (ground : ℚ → ℚ → ℚ)
    (samples : List Pt2) (dt : ℚ) (k : Keys) (v : Vehicle) (r : Race)
    (boost velY : ℚ) (onGround : Bool) (now : ℚ)
    (hf : r.finished = true) :
    (tickDriving lib ground samples dt k false v r boost velY onGround now =
      { v := v, race := r, boost := boost, velY := velY, onGround := onGround,
        exited := false, lapEvent := none, finishEvent := none }) ∧
    ((tickDriving lib ground samples dt k true v r boost velY onGround now).exited
      = true) ∧
    ((tickDriving lib ground samples dt k true v r boost velY onGround now).race
      = { r with active := false }) := by
  refine ⟨?_, ?_, ?_⟩
  · simp [tickDriving, hf]
  · simp [tickDriving, exitVehicle]
  · simp [tickDriving, exitVehicle]

/-- Witness for C10: a concrete finished session is frozen. -/
theorem C10_finished_freeze_witness :
    raceDone.finished = true ∧
    (tickDriving witLib ground0 samp0 (1/20) keysL false carFast raceDone
        55 0 true 7).race = raceDone :=
  ⟨by with_unfolding_all decide, by
    rw [(C10_finished_freeze witLib ground0 samp0 (1/20) keysL carFast raceDone
      55 0 true 7 (by with_unfolding_all decide)).1]⟩

/-- The collision resolver never modifies the active vehicle's
rotation. -/
theorem resolveCollision_rot (lib : FloatLib) (me : Vehicle)
    (ox oz otherR : ℚ) (p : Bool) :
    (resolveCollision lib me ox oz otherR p).1.rot = me.rot := by
  unfold resolveCollision
  dsimp only
  split_ifs <;> rfl

/-- The loop over parked vehicles never modifies the rotation. -/
theorem collideOthers_rot (lib : FloatLib) :
    ∀ (os : List Vehicle) (me : Vehicle),
      (collideOthers lib me os).1.rot = me.rot := by
  intro os
  induction os with
  | nil => intro me; rfl
  | cons o os ih =>
      intro me
      unfold collideOthers
      rw [ih]
      exact resolveCollision_rot ..

/-- The loop over remote players never modifies the rotation. -/
theorem collideRemotes_rot (lib : FloatLib) :
    ∀ (rps : List RemoteP) (me : Vehicle),
      (collideRemotes lib me rps).rot = me.rot := by
  intro rps
  induction rps with
  | nil => intro me; rfl
  | cons rp rps ih =>
      intro me
      unfold collideRemotes
      rw [ih]
      exact resolveCollision_rot ..

/-- Claim C4 (amended): the heading is never wrapped back into
(-pi, pi]: the driving step adds its steering increment to the
rotation with no normalization, the flying step adds yawVel times dt
with no normalization, and the collision resolver leaves the rotation
alone — so the heading can leave (-pi, pi]. -/
theorem C4_rotation_unwrapped (lib : FloatLib) (ground : ℚ → ℚ → ℚ)
    (samples : List Pt2) (dt : ℚ) (k : Keys) (v : Vehicle) (r : Race)
    (boost velY : ℚ) (onGround : Bool) (now : ℚ) (mouse : Mouse)
    (vf : Vehicle) (yawVel pitchVel : ℚ) (others : List Vehicle)
    (remotes : List RemoteP)
    (hf : r.finished = false) :
    ((tickDriving lib ground samples dt k false v r boost velY onGround now).v.rot =
      v.rot + driveTurnIncrement k dt
        (driveSpeedPipeline (isOnTrack lib samples (v.posX, v.posZ))
          (k.shift && decide (0 < boost) && k.forward) k dt v.speed)) ∧
    ((tickFlying lib ground dt k false mouse vf yawVel pitchVel).v.rot =
      vf.rot + ((yawVel + (-mouse.dx) * 0.002) * (1 - 5 * dt)) * dt) ∧
    ((tickVehicleCollisions lib v others remotes).1.rot = v.rot) := by
  refine ⟨?_, ?_, ?_⟩
  · simp only [tickDriving, hf, Bool.false_eq_true, if_false]
  · simp only [tickFlying, Bool.false_eq_true, false_and, if_false]
  · unfold tickVehicleCollisions
    rw [collideRemotes_rot, collideOthers_rot]

/-- Witness for C4's amended statement at concrete inputs. -/
theorem C4_rotation_unwrapped_witness :
    raceFresh.finished = false ∧
    (tickDriving witLib ground0 samp0 (1/20) keysL false carTurn raceFresh
        100 0 true 0).v.rot =
      carTurn.rot + driveTurnIncrement keysL (1/20)
        (driveSpeedPipeline (isOnTrack witLib samp0 (carTurn.posX, carTurn.posZ))
          (keysL.shift && decide ((0:ℚ) < 100) && keysL.forward) keysL (1/20)
          carTurn.speed) :=
  ⟨by with_unfolding_all decide,
    (C4_rotation_unwrapped witLib ground0 samp0 (1/20) keysL carTurn raceFresh
      100 0 true 0 ⟨0, 0⟩ carTurn 0 0 [] [] (by with_unfolding_all decide)).1⟩

/-- Counterexample for C4 as stated: a car heading 3.1 rad (inside
(-pi, pi]) steering left at speed 40 for one 0.05 s step ends the
frame with heading 3.21 rad, which exceeds pi — no wrapping ever
happens. -/
theorem C4_rotation_wrap_cex :
    (-Real.pi < (31/10 : ℝ) ∧ (31/10 : ℝ) ≤ Real.pi) ∧
    ((tickDriving witLib ground0 samp0 (1/20) keysL false carTurn raceFresh
        100 0 true 0).v.rot = 321/100) ∧
    ¬((321/100 : ℝ) ≤ Real.pi) := by
  refine ⟨⟨?_, ?_⟩, ?_, ?_⟩
  · have h := Real.pi_pos
    linarith
  · linarith [Real.pi_gt_d6]
  · with_unfolding_all decide
  · intro h
    linarith [Real.pi_lt_d2]

/-- The driving speed pipeline always lands in [-18, 135]: the clamp
bounds it by -reverseMax below and by the largest boosted on-road
maximum (90 x 1.5) above, and the dead zone writes 0. -/
theorem clampBound (M s : ℚ) (hM : M ≤ 135) :
    -18 ≤ max (-DRIVE.reverseMax) (min M s) ∧
      max (-DRIVE.reverseMax) (min M s) ≤ 135 := by
  have h1 : -DRIVE.reverseMax = (-18 : ℚ) := by norm_num [DRIVE]
  rw [h1]
  exact ⟨le_max_left _ _, max_le (by norm_num) (le_trans (min_le_left _ _) hM)⟩

set_option maxHeartbeats 2000000 in
/-- The driving speed pipeline always lands in [-18, 135]: the clamp
bounds it by -reverseMax below and by the largest boosted on-road
maximum (90 x 1.5) above, and the dead zone writes 0. -/
theorem driveSpeedPipeline_bounds (onRoad boosting : Bool) (k : Keys)
    (dt speed : ℚ) :
    -18 ≤ driveSpeedPipeline onRoad boosting k dt speed ∧
      driveSpeedPipeline onRoad boosting k dt speed ≤ 135 := by
  simp only [driveSpeedPipeline, DRIVE]
  split_ifs <;> constructor <;> norm_num

/-- The collision resolver either keeps the active vehicle's speed or
multiplies it by -COLLISION_BOUNCE. -/
theorem resolveCollision_speed (lib : FloatLib) (me : Vehicle)
    (ox oz otherR : ℚ) (p : Bool) :
    (resolveCollision lib me ox oz otherR p).1.speed = me.speed ∨
    (resolveCollision lib me ox oz otherR p).1.speed =
      me.speed * (-COLLISION_BOUNCE) := by
  unfold resolveCollision
  dsimp only
  split_ifs <;> simp

/-- An interval closed under the -0.6 bounce absorbs one resolver
application. -/
theorem resolveCollision_speed_pres (lib : FloatLib) (me : Vehicle)
    (ox oz otherR : ℚ) (p : Bool) (lo hi : ℚ)
    (hbl : lo ≤ hi * (-COLLISION_BOUNCE)) (hbh : lo * (-COLLISION_BOUNCE) ≤ hi)
    (h1 : lo ≤ me.speed) (h2 : me.speed ≤ hi) :
    lo ≤ (resolveCollision lib me ox oz otherR p).1.speed ∧
      (resolveCollision lib me ox oz otherR p).1.speed ≤ hi := by
  rcases resolveCollision_speed lib me ox oz otherR p with h | h <;> rw [h]
  · exact ⟨h1, h2⟩
  · unfold COLLISION_BOUNCE at *
    constructor <;> nlinarith

/-- The parked-vehicle collision loop keeps the speed inside an
interval closed under the bounce. -/
theorem collideOthers_speed_pres (lib : FloatLib) (lo hi : ℚ)
    (hbl : lo ≤ hi * (-COLLISION_BOUNCE)) (hbh : lo * (-COLLISION_BOUNCE) ≤ hi) :
    ∀ (os : List Vehicle) (me : Vehicle), lo ≤ me.speed → me.speed ≤ hi →
      lo ≤ (collideOthers lib me os).1.speed ∧
        (collideOthers lib me os).1.speed ≤ hi := by
  intro os
  induction os with
  | nil => intro me h1 h2; exact ⟨h1, h2⟩
  | cons o os ih =>
      intro me h1 h2
      unfold collideOthers
      have hr := resolveCollision_speed_pres lib me o.posX o.posZ
        (vehRadius o.typ) true lo hi hbl hbh h1 h2
      exact ih _ hr.1 hr.2

/-- The remote-player collision loop keeps the speed inside an
interval closed under the bounce. -/
theorem collideRemotes_speed_pres (lib : FloatLib) (lo hi : ℚ)
    (hbl : lo ≤ hi * (-COLLISION_BOUNCE)) (hbh : lo * (-COLLISION_BOUNCE) ≤ hi) :
    ∀ (rps : List RemoteP) (me : Vehicle), lo ≤ me.speed → me.speed ≤ hi →
      lo ≤ (collideRemotes lib me rps).speed ∧
        (collideRemotes lib me rps).speed ≤ hi := by
  intro rps
  induction rps with
  | nil => intro me h1 h2; exact ⟨h1, h2⟩
  | cons rp rps ih =>
      intro me h1 h2
      unfold collideRemotes
      have hr := resolveCollision_speed_pres lib me rp.posX rp.posZ
        (remoteRadius rp.mode) false lo hi hbl hbh h1 h2
      exact ih _ hr.1 hr.2

/-- Full collision pass preservation. -/
theorem tickVehicleCollisions_speed_pres (lib : FloatLib) (lo hi : ℚ)
    (hbl : lo ≤ hi * (-COLLISION_BOUNCE)) (hbh : lo * (-COLLISION_BOUNCE) ≤ hi)
    (me : Vehicle) (others : List Vehicle) (remotes : List RemoteP)
    (h1 : lo ≤ me.speed) (h2 : me.speed ≤ hi) :
    lo ≤ (tickVehicleCollisions lib me others remotes).1.speed ∧
      (tickVehicleCollisions lib me others remotes).1.speed ≤ hi := by
  unfold tickVehicleCollisions
  have ha := collideOthers_speed_pres lib lo hi hbl hbh others me h1 h2
  exact collideRemotes_speed_pres lib lo hi hbl hbh remotes _ ha.1 ha.2

/-- The driving step keeps the speed inside [-81, 135]: the pipeline
lands in [-18, 135], the wall bounce scales by -0.3, the exit path
zeroes the speed and a frozen (finished) step keeps the incoming
value. -/
theorem tickDriving_speed_bound (lib : FloatLib) (ground : ℚ → ℚ → ℚ)
    (samples : List Pt2) (dt : ℚ) (k : Keys) (justE : Bool) (v : Vehicle)
    (r : Race) (boost velY : ℚ) (onGround : Bool) (now : ℚ)
    (h : -81 ≤ v.speed ∧ v.speed ≤ 135) :
    -81 ≤ (tickDriving lib ground samples dt k justE v r boost velY onGround
        now).v.speed ∧
      (tickDriving lib ground samples dt k justE v r boost velY onGround
        now).v.speed ≤ 135 := by
  have hp := driveSpeedPipeline_bounds
    (isOnTrack lib samples (v.posX, v.posZ))
    (k.shift && decide (0 < boost) && k.forward) k dt v.speed
  unfold tickDriving exitVehicle
  dsimp only
  refine ⟨?_, ?_⟩ <;>
    · split
      · dsimp only
        norm_num
      · split
        · dsimp only
          linarith [h.1, h.2]
        · dsimp only
          split_ifs <;> dsimp only <;> linarith [hp.1, hp.2]

/-- The flying step keeps the speed inside [0, 120]: the throttle
clamp lands there and the exit path zeroes it. -/
theorem tickFlying_speed_bound (lib : FloatLib) (ground : ℚ → ℚ → ℚ)
    (dt : ℚ) (k : Keys) (justE : Bool) (mouse : Mouse) (v : Vehicle)
    (yawVel pitchVel : ℚ) :
    0 ≤ (tickFlying lib ground dt k justE mouse v yawVel pitchVel).v.speed ∧
      (tickFlying lib ground dt k justE mouse v yawVel pitchVel).v.speed ≤ 120 := by
  unfold tickFlying
  dsimp only
  constructor <;> split <;> dsimp only
  · norm_num
  · exact le_max_left _ _
  · norm_num
  · exact max_le (by norm_num) (le_trans (min_le_left _ _) (by norm_num [FLY]))

/-- Claim C3 (amended): at the end of a full driving frame the speed
lies in [-81, 135] (the mode step lands in [-18, 135] before its
wall bounce, which scales by -0.3; the collision bounce then scales
by -0.6, so -18 is NOT a lower bound for the frame); a full flying
frame ends in [-72, 120] (the mode step clamps to [0, 120], the
collision bounce can make it negative); the walking reported speed is
one of 0, 8, 16. -/
theorem C3_speed_bounds (lib : FloatLib) (ground : ℚ → ℚ → ℚ)
    (samples : List Pt2) (dt : ℚ) (k : Keys) (justE : Bool) (v : Vehicle)
    (r : Race) (boost velY : ℚ) (onGround : Bool) (now : ℚ)
    (others : List Vehicle) (remotes : List RemoteP) (mouse : Mouse)
    (vf : Vehicle) (yawVel pitchVel : ℚ) (isMoving shift : Bool)
    (h : -81 ≤ v.speed ∧ v.speed ≤ 135) :
    (-81 ≤ (drivingFrame lib ground samples dt k justE v r boost velY onGround
        now others remotes).1.v.speed ∧
      (drivingFrame lib ground samples dt k justE v r boost velY onGround
        now others remotes).1.v.speed ≤ 135) ∧
    (-72 ≤ (flyingFrame lib ground dt k justE mouse vf yawVel pitchVel others
        remotes).1.v.speed ∧
      (flyingFrame lib ground dt k justE mouse vf yawVel pitchVel others
        remotes).1.v.speed ≤ 120) ∧
    (0 ≤ (tickFlying lib ground dt k justE mouse vf yawVel pitchVel).v.speed ∧
      (tickFlying lib ground dt k justE mouse vf yawVel pitchVel).v.speed ≤ 120) ∧
    (walkReportedSpeed isMoving shift = 0 ∨ walkReportedSpeed isMoving shift = 8 ∨
      walkReportedSpeed isMoving shift = 16) := by
  refine ⟨?_, ?_, tickFlying_speed_bound .., ?_⟩
  · have hd := tickDriving_speed_bound lib ground samples dt k justE v r boost
      velY onGround now h
    unfold drivingFrame
    dsimp only
    split_ifs
    · exact hd
    · exact tickVehicleCollisions_speed_pres lib (-81) 135
        (by norm_num [COLLISION_BOUNCE]) (by norm_num [COLLISION_BOUNCE])
        _ others remotes hd.1 hd.2
  · have hfb := tickFlying_speed_bound lib ground dt k justE mouse vf yawVel
      pitchVel
    unfold flyingFrame
    dsimp only
    split_ifs
    · constructor <;> linarith [hfb.1, hfb.2]
    · have := tickVehicleCollisions_speed_pres lib (-72) 120
        (by norm_num [COLLISION_BOUNCE]) (by norm_num [COLLISION_BOUNCE])
        _ others remotes (by linarith [hfb.1]) hfb.2
      exact this
  · unfold walkReportedSpeed
    split_ifs <;> simp [WALK]

/-- Witness for C3's amended statement: the concrete frame of the
counterexample run stays inside [-81, 135]. -/
theorem C3_speed_bounds_witness :
    (-81 ≤ carFast.speed ∧ carFast.speed ≤ 135) ∧
    (-81 ≤ (drivingFrame witLib ground0 samp0 (1/20) keys0 false carFast
        raceFresh 100 0 true 0 [] [remoteWalk]).1.v.speed ∧
      (drivingFrame witLib ground0 samp0 (1/20) keys0 false carFast raceFresh
        100 0 true 0 [] [remoteWalk]).1.v.speed ≤ 135) :=
  ⟨by with_unfolding_all decide,
    (C3_speed_bounds witLib ground0 samp0 (1/20) keys0 false carFast raceFresh
      100 0 true 0 [] [remoteWalk] ⟨0, 0⟩ carFast 0 0 false false
      (by with_unfolding_all decide)).1⟩

/-- Counterexample for C3 as stated: a car driving on-road at speed 40
(inside the claimed [-18, 90]) that ends its frame bounced by a
walking remote player right behind it finishes the frame at speed
-23.64, below the claimed lower bound -18 for every on/off-road and
boost combination. -/
theorem C3_speed_clamp_cex :
    (-18 ≤ carFast.speed ∧ carFast.speed ≤ 90) ∧
    (drivingFrame witLib ground0 samp0 (1/20) keys0 false carFast raceFresh
        100 0 true 0 [] [remoteWalk]).1.v.speed = -591/25 ∧
    ¬(-18 ≤ (-591/25 : ℚ)) := by
  refine ⟨by with_unfolding_all decide, ?_, by norm_num⟩
  set_option maxRecDepth 10000 in with_unfolding_all decide

/-- Claim C5: when the active vehicle overlaps another entity (true
planar distance below the sum of the type radii and above the 0.01
epsilon, with an exact sqrt oracle), the resolver pushes the active
vehicle out along the separation normal by the full overlap against an
immovable other (remote player) and by half against a mutable other
(parked local vehicle), which is itself pushed back by the other half;
and the speed is inverted and damped by 0.6 exactly when the heading
has a positive component along the separation normal. -/
theorem C5_collision_resolution (lib : FloatLib) (me : Vehicle)
    (ox oz otherR : ℚ) (pushOther : Bool)
    (hsq : SqrtOK lib
      ((me.posX - ox) * (me.posX - ox) + (me.posZ - oz) * (me.posZ - oz)))
    (hlt : lib.sqrt
        ((me.posX - ox) * (me.posX - ox) + (me.posZ - oz) * (me.posZ - oz)) <
      vehRadius me.typ + otherR)
    (heps : (0.01 : ℚ) < lib.sqrt
      ((me.posX - ox) * (me.posX - ox) + (me.posZ - oz) * (me.posZ - oz))) :
    ((resolveCollision lib me ox oz otherR pushOther).1.posX =
      me.posX + (me.posX - ox) /
        lib.sqrt ((me.posX - ox) * (me.posX - ox) + (me.posZ - oz) * (me.posZ - oz)) *
        (vehRadius me.typ + otherR -
          lib.sqrt ((me.posX - ox) * (me.posX - ox) + (me.posZ - oz) * (me.posZ - oz))) *
        (if pushOther then (0.5 : ℚ) else 1.0)) ∧
    ((resolveCollision lib me ox oz otherR pushOther).1.posZ =
      me.posZ + (me.posZ - oz) /
        lib.sqrt ((me.posX - ox) * (me.posX - ox) + (me.posZ - oz) * (me.posZ - oz)) *
        (vehRadius me.typ + otherR -
          lib.sqrt ((me.posX - ox) * (me.posX - ox) + (me.posZ - oz) * (me.posZ - oz))) *
        (if pushOther then (0.5 : ℚ) else 1.0)) ∧
    ((0 < lib.sin me.rot * ((me.posX - ox) /
          lib.sqrt ((me.posX - ox) * (me.posX - ox) + (me.posZ - oz) * (me.posZ - oz))) +
        lib.cos me.rot * ((me.posZ - oz) /
          lib.sqrt ((me.posX - ox) * (me.posX - ox) + (me.posZ - oz) * (me.posZ - oz))) →
      (resolveCollision lib me ox oz otherR pushOther).1.speed =
        me.speed * (-COLLISION_BOUNCE)) ∧
     (¬0 < lib.sin me.rot * ((me.posX - ox) /
          lib.sqrt ((me.posX - ox) * (me.posX - ox) + (me.posZ - oz) * (me.posZ - oz))) +
        lib.cos me.rot * ((me.posZ - oz) /
          lib.sqrt ((me.posX - ox) * (me.posX - ox) + (me.posZ - oz) * (me.posZ - oz))) →
      (resolveCollision lib me ox oz otherR pushOther).1.speed = me.speed)) ∧
    ((resolveCollision lib me ox oz otherR pushOther).2 =
      if pushOther then
        some (ox - (me.posX - ox) /
          lib.sqrt ((me.posX - ox) * (me.posX - ox) + (me.posZ - oz) * (me.posZ - oz)) *
          (vehRadius me.typ + otherR -
            lib.sqrt ((me.posX - ox) * (me.posX - ox) + (me.posZ - oz) * (me.posZ - oz))) * 0.5,
          oz - (me.posZ - oz) /
          lib.sqrt ((me.posX - ox) * (me.posX - ox) + (me.posZ - oz) * (me.posZ - oz)) *
          (vehRadius me.typ + otherR -
            lib.sqrt ((me.posX - ox) * (me.posX - ox) + (me.posZ - oz) * (me.posZ - oz))) * 0.5)
      else none) := by
  unfold resolveCollision
  dsimp only
  rw [if_pos ⟨hlt, heps⟩]
  refine ⟨?_, ?_, ⟨fun hdot => ?_, fun hdot => ?_⟩, ?_⟩
  · split_ifs <;> rfl
  · split_ifs <;> rfl
  · rw [if_pos hdot]
  · rw [if_neg hdot]
  · rfl

/-- Witness for C5: a car one unit behind the active car (3-4-5 style
exact distance 1) overlaps it, the heading points along the
separation normal, and the bounce fires. -/
theorem C5_collision_resolution_witness :
    SqrtOK witLib
      ((carMe5.posX - 0) * (carMe5.posX - 0) + (carMe5.posZ - 0) * (carMe5.posZ - 0)) ∧
    (witLib.sqrt ((carMe5.posX - 0) * (carMe5.posX - 0) +
        (carMe5.posZ - 0) * (carMe5.posZ - 0)) <
      vehRadius carMe5.typ + CAR_COLLISION_RADIUS) ∧
    ((0.01 : ℚ) < witLib.sqrt ((carMe5.posX - 0) * (carMe5.posX - 0) +
      (carMe5.posZ - 0) * (carMe5.posZ - 0))) ∧
    ((resolveCollision witLib carMe5 0 0 CAR_COLLISION_RADIUS true).1.speed =
      carMe5.speed * (-COLLISION_BOUNCE)) :=
  ⟨by with_unfolding_all decide, by with_unfolding_all decide,
    by with_unfolding_all decide,
    ((C5_collision_resolution witLib carMe5 0 0 CAR_COLLISION_RADIUS true
      (by with_unfolding_all decide) (by with_unfolding_all decide)
      (by with_unfolding_all decide)).2.2.1).1 (by with_unfolding_all decide)⟩

/-- A successful fireInto preserves the pool length. -/
theorem fireInto_length (b' : Bullet) :
    ∀ (pool p : List Bullet), fireInto b' pool = some p →
      p.length = pool.length := by
  intro pool
  induction pool with
  | nil => intro p h; simp [fireInto] at h
  | cons b bs ih =>
      intro p h
      unfold fireInto at h
      split_ifs at h with hb
      · simp only [Option.some.injEq] at h
        subst h
        rfl
      · rcases Option.map_eq_some'.mp h with ⟨q, hq, rfl⟩
        simp [ih q hq]

/-- fireInto on a pool with every slot active fails. -/
theorem fireInto_none (b' : Bullet) :
    ∀ (pool : List Bullet), pool.all (fun x => x.active) = true →
      fireInto b' pool = none := by
  intro pool
  induction pool with
  | nil => intro _; rfl
  | cons b bs ih =>
      intro h
      simp only [List.all_cons, Bool.and_eq_true] at h
      unfold fireInto
      rw [if_neg (by simp [h.1]), ih h.2]
      rfl

/-- fireInto replaces exactly the first inactive slot. -/
theorem fireInto_first (b' : Bullet) :
    ∀ (p1 : List Bullet) (b : Bullet) (p2 : List Bullet),
      p1.all (fun x => x.active) = true → b.active = false →
      fireInto b' (p1 ++ b :: p2) = some (p1 ++ b' :: p2) := by
  intro p1
  induction p1 with
  | nil =>
      intro b p2 _ hb
      simp only [List.nil_append]
      unfold fireInto
      rw [if_pos (by simp [hb])]
  | cons x xs ih =>
      intro b p2 hall hb
      simp only [List.all_cons, Bool.and_eq_true] at hall
      simp only [List.cons_append]
      unfold fireInto
      rw [if_neg (by simp [hall.1]), ih b p2 hall.2 hb]
      rfl

/-- tickBullets preserves the pool length. -/
theorem tickBullets_length (dt : ℚ) :
    ∀ (pool : List Bullet) (ts : List AerialTarget),
      (tickBullets dt pool ts).1.length = pool.length := by
  intro pool
  induction pool with
  | nil => intro ts; rfl
  | cons b bs ih =>
      intro ts
      unfold tickBullets
      simp [ih]

/-- Claim C7: the pool has exactly 30 fixed slots and both fireBullet
and tickBullets preserve that length, so no more than 30 bullets are
ever simultaneously active; a fire with a free slot activates the
first inactive slot and only it; with all 30 slots active the fire
changes nothing (the shot is silently dropped, the left/right
alternation flag is untouched). -/
theorem C7_bullet_pool (lib : FloatLib) (v : Vehicle) (fireLeft : Bool)
    (pool : List Bullet) (dt : ℚ) (ts : List AerialTarget) :
    makeBulletPool.length = MAX_BULLETS ∧
    (fireBullet lib v fireLeft pool).1.length = pool.length ∧
    (tickBullets dt pool ts).1.length = pool.length ∧
    (pool.length = MAX_BULLETS →
      ((fireBullet lib v fireLeft pool).1.countP (fun b => b.active)) ≤ MAX_BULLETS ∧
      ((tickBullets dt pool ts).1.countP (fun b => b.active)) ≤ MAX_BULLETS) ∧
    (pool.all (fun x => x.active) = true →
      fireBullet lib v fireLeft pool = (pool, fireLeft)) ∧
    (∀ (p1 : List Bullet) (b : Bullet) (p2 : List Bullet),
      pool = p1 ++ b :: p2 → p1.all (fun x => x.active) = true →
      b.active = false →
      fireBullet lib v fireLeft pool =
        (p1 ++ newBullet lib v fireLeft :: p2, !fireLeft)) := by
  refine ⟨rfl, ?_, tickBullets_length dt pool ts, fun hlen => ⟨?_, ?_⟩, ?_, ?_⟩
  · unfold fireBullet
    cases hf : fireInto (newBullet lib v fireLeft) pool with
    | none => rfl
    | some p => exact fireInto_length _ pool p hf
  · calc ((fireBullet lib v fireLeft pool).1.countP (fun b => b.active)) ≤
        (fireBullet lib v fireLeft pool).1.length := List.countP_le_length _
    _ ≤ MAX_BULLETS := by
        rw [show (fireBullet lib v fireLeft pool).1.length = pool.length from ?_, hlen]
        unfold fireBullet
        cases hf : fireInto (newBullet lib v fireLeft) pool with
        | none => rfl
        | some p => exact fireInto_length _ pool p hf
  · calc ((tickBullets dt pool ts).1.countP (fun b => b.active)) ≤
        (tickBullets dt pool ts).1.length := List.countP_le_length _
    _ ≤ MAX_BULLETS := by rw [tickBullets_length dt pool ts, hlen]
  · intro hall
    unfold fireBullet
    rw [fireInto_none _ pool hall]
  · intro p1 b p2 hdec hall hb
    unfold fireBullet
    rw [hdec, fireInto_first _ p1 b p2 hall hb]

/-- Witness for C7: a full pool drops the shot silently; the fresh
pool activates slot 0. -/
theorem C7_bullet_pool_witness :
    poolFull.all (fun x => x.active) = true ∧
    fireBullet witLib planeV true poolFull = (poolFull, true) ∧
    (makeBulletPool = ([] : List Bullet) ++ inactiveB :: List.replicate 29 inactiveB) ∧
    fireBullet witLib planeV true makeBulletPool =
      (([] : List Bullet) ++ newBullet witLib planeV true :: List.replicate 29 inactiveB,
        false) :=
  ⟨by with_unfolding_all decide,
    (C7_bullet_pool witLib planeV true poolFull 0 []).2.2.2.2.1
      (by with_unfolding_all decide),
    by with_unfolding_all decide,
    (C7_bullet_pool witLib planeV true makeBulletPool 0 []).2.2.2.2.2
      [] inactiveB (List.replicate 29 inactiveB)
      (by with_unfolding_all decide) (by with_unfolding_all decide)
      (by with_unfolding_all decide)⟩

/-- tickTargets leaves an alive target untouched. -/
theorem tickTarget_alive (dt : ℚ) (t : AerialTarget) (h : t.alive = true) :
    tickTarget dt t = t := by
  unfold tickTarget
  simp [h]

/-- Frames never change an alive target. -/
theorem applyFrames_alive (dts : List ℚ) :
    ∀ (t : AerialTarget), t.alive = true → applyFrames t dts = t := by
  induction dts with
  | nil => intro t _; rfl
  | cons d rest ih =>
      intro t h
      unfold applyFrames
      rw [List.foldl_cons, tickTarget_alive d t h]
      exact ih t h

/-- Countdown characterization: a dead target with a positive timer c
is alive after a run of nonnegative frame deltas exactly when their
total reaches c (the timer is decremented by each frame, the hit
frame's own delta included, and revival is permanent). -/
theorem respawn_countdown :
    ∀ (dts : List ℚ), (∀ d ∈ dts, 0 ≤ d) → ∀ (c : ℚ) (p : V3), 0 < c →
      ((applyFrames { pos := p, alive := false, respawnTimer := c } dts).alive = true
        ↔ c ≤ dts.sum) := by
  intro dts
  induction dts with
  | nil =>
      intro _ c p hc
      constructor
      · intro h
        simp [applyFrames] at h
      · intro h
        simp at h
        linarith
  | cons d rest ih =>
      intro hd c p hc
      have hd0 : (0 : ℚ) ≤ d := hd d (by simp)
      have hdrest : ∀ x ∈ rest, (0 : ℚ) ≤ x := fun x hx => hd x (by simp [hx])
      by_cases hcd : c - d ≤ 0
      · have hstep : tickTarget d { pos := p, alive := false, respawnTimer := c } =
            { pos := p, alive := true, respawnTimer := c - d } := by
          unfold tickTarget
          simp [hcd]
        have : applyFrames { pos := p, alive := false, respawnTimer := c } (d :: rest) =
            { pos := p, alive := true, respawnTimer := c - d } := by
          unfold applyFrames
          rw [List.foldl_cons, hstep]
          exact applyFrames_alive rest _ rfl
        rw [this]
        have hsum : (0 : ℚ) ≤ rest.sum := List.sum_nonneg hdrest
        simp only [List.sum_cons]
        constructor
        · intro _
          linarith
        · intro _
          trivial
      · have hstep : tickTarget d { pos := p, alive := false, respawnTimer := c } =
            { pos := p, alive := false, respawnTimer := c - d } := by
          unfold tickTarget
          simp [hcd]
        have hrw : applyFrames { pos := p, alive := false, respawnTimer := c } (d :: rest) =
            applyFrames { pos := p, alive := false, respawnTimer := c - d } rest := by
          unfold applyFrames
          rw [List.foldl_cons, hstep]
        rw [hrw, ih hdrest (c - d) p (by linarith)]
        simp only [List.sum_cons]
        constructor
        · intro h
          linarith
        · intro h
          linarith

/-- Claim C8 (amended): a bullet hit marks the first alive target in
range dead with a 3 second countdown at that very frame, and the
target is alive again at the end of the first frame at which the
accumulated frame deltas SINCE AND INCLUDING THE HIT FRAME reach 3 s
— never at any earlier frame.  Because the hit frame's own delta
already counts, revival can come up to one frame delta less than 3 s
of simulated time after the end of the hit frame. -/
theorem C8_target_respawn (bpos : V3) (t : AerialTarget)
    (ts : List AerialTarget) (dts : List ℚ) (p : V3)
    (hd : ∀ d ∈ dts, 0 ≤ d)
    (halive : t.alive = true)
    (hdist : (bpos.x - t.pos.x) * (bpos.x - t.pos.x) +
        (bpos.y - t.pos.y) * (bpos.y - t.pos.y) +
        (bpos.z - t.pos.z) * (bpos.z - t.pos.z) < TARGET_HIT_RADIUS_SQ) :
    (tryHit bpos (t :: ts) =
      (true, { t with alive := false, respawnTimer := TARGET_RESPAWN_TIME } :: ts)) ∧
    ((applyFrames { pos := p, alive := false, respawnTimer := TARGET_RESPAWN_TIME }
        dts).alive = true ↔ (3 : ℚ) ≤ dts.sum) := by
  constructor
  · unfold tryHit
    rw [if_pos ⟨halive, hdist⟩]
  · exact respawn_countdown dts hd TARGET_RESPAWN_TIME p (by norm_num [TARGET_RESPAWN_TIME])

/-- Witness for C8's amended statement: hit a target dead on, then 67
frames of 0.045 s revive it (total 3.015 s from the start of the hit
frame). -/
theorem C8_target_respawn_witness :
    (makeTargets.head?.isSome = true) ∧
    (tryHit ⟨40, 50, 60⟩ [{ pos := ⟨40, 50, 60⟩, alive := true, respawnTimer := 0 }] =
      (true, [{ pos := ⟨40, 50, 60⟩, alive := false, respawnTimer := TARGET_RESPAWN_TIME }])) ∧
    ((applyFrames
        { pos := ⟨40, 50, 60⟩, alive := false, respawnTimer := TARGET_RESPAWN_TIME }
        (List.replicate 67 (9/200))).alive = true
      ↔ (3 : ℚ) ≤ (List.replicate 67 ((9 : ℚ)/200)).sum) :=
  ⟨by with_unfolding_all decide,
    (C8_target_respawn ⟨40, 50, 60⟩
      { pos := ⟨40, 50, 60⟩, alive := true, respawnTimer := 0 } []
      (List.replicate 67 (9/200)) ⟨40, 50, 60⟩
      (by with_unfolding_all decide) (by with_unfolding_all decide)
      (by with_unfolding_all decide)).1,
    (C8_target_respawn ⟨40, 50, 60⟩
      { pos := ⟨40, 50, 60⟩, alive := true, respawnTimer := 0 } []
      (List.replicate 67 (9/200)) ⟨40, 50, 60⟩
      (by with_unfolding_all decide) (by with_unfolding_all decide)
      (by with_unfolding_all decide)).2⟩

/-- Counterexample for C8 as stated: with 0.045 s frames, a target hit
during frame 0 is still dead at the end of frame 65 but alive at the
end of frame 66 — that is 66 x 0.045 = 2.97 s of simulated time after
the end of the frame in which it was hit, EARLIER than T + 3; and the
total from the start of the hit frame is 67 x 0.045 = 3.015, so the
revival moment is not exactly 3 s after the hit however the hit time
is read. -/
theorem C8_target_respawn_cex :
    ((applyFrames
        { pos := ⟨0, 0, 0⟩, alive := false, respawnTimer := TARGET_RESPAWN_TIME }
        (List.replicate 67 (9/200))).alive = true) ∧
    ((applyFrames
        { pos := ⟨0, 0, 0⟩, alive := false, respawnTimer := TARGET_RESPAWN_TIME }
        (List.replicate 66 (9/200))).alive = false) ∧
    (66 * ((9 : ℚ)/200) < 3) ∧ ¬(67 * ((9 : ℚ)/200) = 3) := by
  refine ⟨?_, ?_, by norm_num, by norm_num⟩ <;>
    set_option maxRecDepth 10000 in with_unfolding_all decide

/-- findIndexFrom misses exactly when no element satisfies the
predicate. -/
theorem findIndexFrom_none (p : LBEntry → Bool) :
    ∀ (l : List LBEntry), findIndexFrom p l = none ↔ ∀ e ∈ l, p e = false := by
  intro l
  induction l with
  | nil => simp [findIndexFrom]
  | cons e es ih =>
      unfold findIndexFrom
      split_ifs with hp
      · simp [hp]
      · constructor
        · intro h x hx
          rcases List.mem_cons.mp hx with rfl | hx'
          · simpa using hp
          · exact ih.mp (Option.map_eq_none'.mp h) x hx'
        · intro h
          rw [Option.map_eq_none']
          exact ih.mpr (fun x hx => h x (List.mem_cons_of_mem _ hx))

/-- A successful findIndexFrom points at a matching entry and nothing
before it matches: it is the FIRST match. -/
theorem findIndexFrom_first (p : LBEntry → Bool) :
    ∀ (l : List LBEntry) (i : Nat), findIndexFrom p l = some i →
      (∃ e, l[i]? = some e ∧ p e = true) ∧
      ∀ j, j < i → ∀ e', l[j]? = some e' → p e' = false := by
  intro l
  induction l with
  | nil => intro i h; simp [findIndexFrom] at h
  | cons e es ih =>
      intro i h
      unfold findIndexFrom at h
      split_ifs at h with hp
      · simp only [Option.some.injEq] at h
        subst h
        exact ⟨⟨e, by simp, hp⟩, fun j hj => absurd hj (by omega)⟩
      · rcases Option.map_eq_some'.mp h with ⟨j0, hj0, rfl⟩
        rcases ih j0 hj0 with ⟨⟨e', he', hpe⟩, hmin⟩
        refine ⟨⟨e', by simpa using he', hpe⟩, ?_⟩
        intro j hj e'' hg
        cases j with
        | zero =>
            have : e'' = e := by simpa using hg.symm
            subst this
            simpa using hp
        | succ k =>
            exact hmin k (by omega) e'' (by simpa using hg)

/-- Claim C6 (amended): an absent/empty name, non-number time or
non-positive time gets a 400 with the store untouched; a valid body
replaces the store with the stable ascending-by-time sort of the old
store plus the new entry (name cut to 20 characters, given time,
current date string), truncated to 200 — so the result is sorted with
at most 200 entries — and responds success with rank = 1 + the index
of the FIRST stored entry whose time equals the given time and whose
name equals the given UN-TRUNCATED name, or rank = 0 when no stored
entry matches (as happens whenever the name was longer than 20
characters, or the new entry fell outside the kept 200). -/
theorem C6_leaderboard_post (store : List LBEntry) (name : List Char)
    (timeIsNumber : Bool) (time : ℚ) (nowIso : List Char) :
    ((name = [] ∨ timeIsNumber = false ∨ time ≤ 0) →
      postLeaderboard store name timeIsNumber time nowIso = (store, .badRequest)) ∧
    (name ≠ [] → timeIsNumber = true → 0 < time →
      ((postLeaderboard store name timeIsNumber time nowIso).1 =
        (List.insertionSort lbLe
          (store ++ [{ name := name.take 20, time := time, date := nowIso }])).take 200) ∧
      List.Sorted lbLe (postLeaderboard store name timeIsNumber time nowIso).1 ∧
      (postLeaderboard store name timeIsNumber time nowIso).1.length ≤ 200 ∧
      ∃ rank, (postLeaderboard store name timeIsNumber time nowIso).2 = .ok rank ∧
        (rank = 0 ↔
          ∀ e ∈ (postLeaderboard store name timeIsNumber time nowIso).1,
            ¬(e.time = time ∧ e.name = name)) ∧
        (rank ≠ 0 → ∃ e,
          (postLeaderboard store name timeIsNumber time nowIso).1[rank - 1]? = some e ∧
          e.time = time ∧ e.name = name ∧
          ∀ j, j < rank - 1 →
            ∀ e', (postLeaderboard store name timeIsNumber time nowIso).1[j]? = some e' →
              ¬(e'.time = time ∧ e'.name = name))) := by
  constructor
  · intro h
    unfold postLeaderboard
    rw [if_pos]
    rcases h with h | h | h
    · exact Or.inl h
    · exact Or.inr (Or.inl (by simp [h]))
    · exact Or.inr (Or.inr h)
  · intro hn ht h0
    have hcond : ¬(name = [] ∨ (!timeIsNumber) = true ∨ time ≤ 0) := by
      rintro (h | h | h)
      · exact hn h
      · rw [ht] at h
        simp at h
      · linarith
    unfold postLeaderboard
    rw [if_neg hcond]
    dsimp only
    refine ⟨rfl, ?_, ?_, ?_⟩
    · exact List.Pairwise.sublist (List.take_sublist _ _)
        (List.sorted_insertionSort lbLe _)
    · simp [List.length_take]
    · cases hidx : findIndexFrom
        (fun e => decide (e.time = time) && decide (e.name = name))
        ((List.insertionSort lbLe
          (store ++ [{ name := name.take 20, time := time, date := nowIso }])).take 200) with
      | none =>
          refine ⟨0, rfl, ⟨fun _ e he => ?_, fun _ => rfl⟩, fun hr => absurd rfl hr⟩
          have := (findIndexFrom_none _ _).mp hidx e he
          simpa using this
      | some i =>
          obtain ⟨⟨e, he, hpe⟩, hmin⟩ := findIndexFrom_first _ _ i hidx
          simp only [Bool.and_eq_true, decide_eq_true_eq] at hpe
          refine ⟨i + 1, rfl, ⟨fun h0 => absurd h0 (by omega), fun hall => ?_⟩,
            fun _ => ⟨e, by simpa using he, hpe.1, hpe.2, fun j hj e' hg => ?_⟩⟩
          · exact absurd ⟨hpe.1, hpe.2⟩ (hall e (List.getElem?_mem he))
          · have hf := hmin j (by omega) e' hg
            intro hmm
            rw [show (decide (e'.time = time) && decide (e'.name = name)) = true by
              simp [hmm.1, hmm.2]] at hf
            simp at hf

/-- Witness for C6's amended statement: a valid one-character name on
an empty store is stored, and the response carries the nonzero rank 1
(the new entry is the first — and only — match). -/
theorem C6_leaderboard_post_witness :
    (['A'] ≠ ([] : List Char)) ∧
    ((postLeaderboard [] ['A'] true 65 []).1 =
      (List.insertionSort lbLe
        ([] ++ [{ name := (['A'] : List Char).take 20, time := 65, date := [] }])).take 200) ∧
    ((postLeaderboard [] ['A'] true 65 []).2 = .ok 1) :=
  ⟨by with_unfolding_all decide,
    ((C6_leaderboard_post [] ['A'] true 65 []).2 (by with_unfolding_all decide)
      rfl (by norm_num)).1,
    by with_unfolding_all decide⟩

/-- Counterexample for C6 as stated: a 21-character name is stored
truncated to 20 characters, so the rank lookup — which compares
against the ORIGINAL name — finds nothing and the response carries
rank 0, not the 1-based position (1) of the inserted entry. -/
theorem C6_leaderboard_rank_cex :
    longName.length = 21 ∧
    ((postLeaderboard [] longName true 65 []).1 =
      [{ name := longName.take 20, time := 65, date := [] }]) ∧
    ((postLeaderboard [] longName true 65 []).2 = .ok 0) := by
  refine ⟨by with_unfolding_all decide, ?_, ?_⟩ <;> with_unfolding_all decide

end Playground
